import Mathlib

/-!
Verification of the gatsby-image progressive-image-loading core
(`src/packages/gatsby-image/src/index.js`).

The development shallowly embeds the stateful JavaScript module:
the process-wide identity cache and intersection-observer registry are
threaded as explicit state values, fallible JavaScript expressions
(property reads that can throw a TypeError) return `Option`, and JavaScript
truthiness is collapsed to `Bool` at the few points the module branches
on it.
-/

namespace GatsbyImage

/-- Environment facts probed once at module load:
`isBrowser = (typeof window !== undefined)`,
`hasNativeLazyLoadSupport = (typeof HTMLImageElement !== undefined && loading in HTMLImageElement.prototype)`,
`hasIOWindow = window.IntersectionObserver` (as a truthy/falsy fact). -/
structure Env where
  isBrowser : Bool
  hasNativeLazyLoadSupport : Bool
  hasIOWindow : Bool
deriving DecidableEq

/-- `const hasIOSupport = isBrowser && window.IntersectionObserver` (line 86). -/
def hasIOSupport (env : Env) : Bool :=
  env.isBrowser && env.hasIOWindow

/-- One image variant as consumed by the cache key and media grouping logic.
Only the fields the verified core reads (`src`, `media`) are carried;
`media` is `none` when the property is absent. -/
structure Variant where
  src : String
  media : Option String := none
deriving DecidableEq

/-- JavaScript truthiness of `variant.media` (line 140): absent (`undefined`)
and the empty string are falsy, every other string is truthy. -/
def mediaTruthy (v : Variant) : Bool :=
  match v.media with
  | none => false
  | some s => !(s == "")

/-- `groupByMedia` (lines 136-152): pushes each variant, left to right, onto
`withMedia` or `without` according to the truthiness of its `media`
property, then returns `[...withMedia, ...without]`.  The development-mode
console warning has no effect on the result and is not modelled. -/
def groupByMedia (imageVariants : List Variant) : List Variant :=
  let acc := imageVariants.foldl
    (fun (acc : List Variant × List Variant) v =>
      if mediaTruthy v then (acc.1 ++ [v], acc.2) else (acc.1, acc.2 ++ [v]))
    ([], [])
  acc.1 ++ acc.2

/-- Construction input of the `Image` component, restricted to the props the
verified core branches on, with `defaultProps` (lines 621-629) as field
defaults.  The notification hooks are modelled by presence flags
(`typeof hook === function`). -/
structure Props where
  fluid : Option (List Variant) := none
  fixed : Option (List Variant) := none
  resolutions : Option (List Variant) := none
  sizes : Option (List Variant) := none
  critical : Bool := false
  loading : String := "lazy"
  fadeIn : Bool := true
  durationFadeIn : Nat := 500
  onStartLoadPresent : Bool := false
  onLoadPresent : Bool := false
  onErrorPresent : Bool := false
deriving DecidableEq

/-- `convertProps` (lines 22-49): renames the legacy `resolutions`/`sizes`
props to `fixed`/`fluid`, forces `loading = eager` when `critical` is set,
and normalises each supplied variant list through `groupByMedia`
(`[].concat(x)` turning a single object into a one-element list is absorbed
by the fields already being lists). -/
def convertProps (props : Props) : Props :=
  let p := props
  let p := if p.resolutions.isSome then
      { p with fixed := p.resolutions, resolutions := none } else p
  let p := if p.sizes.isSome then
      { p with fluid := p.sizes, sizes := none } else p
  let p := if p.critical then { p with loading := "eager" } else p
  let p := match p.fluid with
    | some l => { p with fluid := some (groupByMedia l) }
    | none => p
  let p := match p.fixed with
    | some l => { p with fixed := some (groupByMedia l) }
    | none => p
  p

/-- `getImageSrcKey` (lines 57-61):
`data = (fluid && fluid[0]) || (fixed && fixed[0]); return data.src`.
An absent or empty list leaves `data` undefined on that side; when both
sides are undefined, `data.src` throws a TypeError, modelled as `none`. -/
def getImageSrcKey (fluid fixed : Option (List Variant)) : Option String :=
  ((fluid.bind List.head?).orElse (fun _ => fixed.bind List.head?)).map Variant.src

/-- The own-property names of `Object.prototype`.  `imageCache` is created
with `Object.create(\x7b\x7d)` (line 65), so a property read on it falls back
through the prototype chain to `Object.prototype`, whose members (all
functions, hence truthy) are visible for these keys. -/
def objectProtoProps : List String :=
  ["constructor", "hasOwnProperty", "isPrototypeOf", "propertyIsEnumerable",
   "toLocaleString", "toString", "valueOf",
   "__defineGetter__", "__defineSetter__", "__lookupGetter__",
   "__lookupSetter__", "__proto__"]

/-- The process-wide identity cache (line 65).  `own` lists the keys that
were explicitly assigned (always with value `true`); reads also see the
inherited `Object.prototype` members. -/
structure ImageCache where
  own : List String := []
deriving DecidableEq

/-- The fresh cache created at module load: no own properties. -/
def emptyImageCache : ImageCache := {}

/-- Truthiness of `imageCache[src] || false` (line 70): an own property
(always `true`) or an inherited `Object.prototype` member (a function,
truthy); otherwise `undefined || false` is falsy. -/
def cacheLookupTruthy (cache : ImageCache) (src : String) : Bool :=
  cache.own.contains src || objectProtoProps.contains src

/-- `inImageCache` (lines 66-71): converts the props, derives the src key
and reads the cache.  `none` models the TypeError thrown by
`getImageSrcKey` when no variant list is supplied. -/
def inImageCache (cache : ImageCache) (props : Props) : Option Bool :=
  let convertedProps := convertProps props
  (getImageSrcKey convertedProps.fluid convertedProps.fixed).map
    (cacheLookupTruthy cache)

/-- `activateCacheForImage` (lines 73-78): converts the props, derives the
src key and sets `imageCache[src] = true`. -/
def activateCacheForImage (cache : ImageCache) (props : Props) :
    Option ImageCache :=
  let convertedProps := convertProps props
  (getImageSrcKey convertedProps.fluid convertedProps.fixed).map
    (fun src => { own := src :: cache.own })

/-! ### Intersection Registry

The shared `IntersectionObserver` (`io`) and the `listeners` WeakMap
(lines 88-116, 185-197).  Elements and callbacks are identified by natural
numbers; the WeakMap and the observer's observed set become total
functions, reflecting the unique-key semantics of a WeakMap. -/

/-- The registry's mutable state: the `listeners` WeakMap (element identity
to pending callback identity) and the set of elements currently observed by
the shared observer. -/
@[ext]
structure RegState where
  listeners : Nat → Option Nat
  observed : Nat → Bool

/-- The registry state at module load: no listeners, nothing observed. -/
def emptyRegistry : RegState :=
  { listeners := fun _ => none, observed := fun _ => false }

/-- `getIO` (lines 91-116) as a capability fact: the lazily constructed
shared observer exists exactly when `window` and
`window.IntersectionObserver` do; otherwise `getIO` returns `undefined`. -/
def getIOModel (env : Env) : Option Unit :=
  if hasIOSupport env then some () else none

/-- One entry as reported by the underlying observer to its callback. -/
structure IOEntry where
  target : Nat
  isIntersecting : Bool
  intersectionRatioNat : Nat
deriving DecidableEq

/-- The registry state and callback identity seen by a fired callback. -/
structure Invocation where
  cb : Nat
  target : Nat
  listenersAtCall : Nat → Option Nat
  observedAtCall : Nat → Bool

/-- Removal of one element from the registry:
`io.unobserve(el); listeners.delete(el)`, both no-ops when the element is
absent.  This pair occurs both in the observer callback (lines 104-105)
and in the unsubscribe closure (lines 194-195). -/
def eraseFromRegistry (el : Nat) (s : RegState) : RegState :=
  { listeners := fun x => if x = el then none else s.listeners x,
    observed := fun x => if x = el then false else s.observed x }

/-- The body of the shared observer's callback for a single entry
(lines 99-109): if the target has a registered listener and the entry is
intersecting (or has a positive intersection ratio, for Edge), the element
is unobserved and its listener removed, and only then is the callback
invoked.  The invocation records the registry state at call time. -/
def ioCallbackEntry (s : RegState) (e : IOEntry) : RegState × List Invocation :=
  match s.listeners e.target with
  | some cb =>
    if e.isIntersecting || decide (0 < e.intersectionRatioNat) then
      let s' := eraseFromRegistry e.target s
      (s', [{ cb := cb, target := e.target,
              listenersAtCall := s'.listeners, observedAtCall := s'.observed }])
    else (s, [])
  | none => (s, [])

/-- The shared observer's callback over a report of several entries
(`entries.forEach`, line 99), and equally over several successive reports
flattened into one list. -/
def ioCallback (s : RegState) : List IOEntry → RegState × List Invocation
  | [] => (s, [])
  | e :: es =>
    let r₁ := ioCallbackEntry s e
    let r₂ := ioCallback r₁.1 es
    (r₂.1, r₁.2 ++ r₂.2)

/-- `listenToIntersections` (lines 185-197): fetches the shared observer;
when it exists, observes the element and registers the callback.  Returns
the new registry state together with the data captured by the returned
unsubscribe closure (the observer reference and the element). -/
def listenToIntersections (env : Env) (el cb : Nat) (s : RegState) :
    RegState × (Option Unit × Nat) :=
  let observer := getIOModel env
  let s' := match observer with
    | some _ =>
      { listeners := fun x => if x = el then some cb else s.listeners x,
        observed := fun x => if x = el then true else s.observed x }
    | none => s
  (s', (observer, el))

/-- Running the unsubscribe closure returned by `listenToIntersections`
(lines 193-196): `observer.unobserve(el); listeners.delete(el)`.  When the
captured `observer` is `undefined` the property read throws a TypeError. -/
def runUnsubscribe (observer : Option Unit) (el : Nat) (s : RegState) :
    Except String RegState :=
  match observer with
  | none => .error ("TypeError: Cannot read property unobserve of undefined")
  | some _ => .ok (eraseFromRegistry el s)

/-! ### Image Load Controller

The `Image` component's constructor and lifecycle methods
(lines 280-366), with React state threaded explicitly. -/

/-- The per-instance controller state (`this.state`) together with the
constructor-computed instance fields the lifecycle methods read
(`this.seenBefore`, `this.useIOSupport`). -/
structure Controller where
  isVisible : Bool
  imgLoaded : Bool
  imgCached : Bool
  fadeIn : Bool
  seenBefore : Bool
  useIOSupport : Bool
deriving DecidableEq

/-- The `Image` constructor (lines 281-310).  `seenBefore` is
`isBrowser && inImageCache(props)` — the cache read (which can throw) only
happens in a browser.  `useIOSupport` and the initial `isVisible` follow
lines 289-298; `fadeIn` is `!seenBefore && props.fadeIn`.  The raw
`props.loading` is compared against the string `eager`. -/
def mkController (env : Env) (cache : ImageCache) (props : Props) :
    Option Controller :=
  (if env.isBrowser then inImageCache cache props else some false).map
    (fun seenBefore =>
      let useIOSupport := !env.hasNativeLazyLoadSupport && hasIOSupport env &&
        !props.critical && !seenBefore
      let isVisible := props.critical || (props.loading == "eager") ||
        (env.isBrowser && (env.hasNativeLazyLoadSupport || !useIOSupport))
      { isVisible := isVisible
        imgLoaded := false
        imgCached := false
        fadeIn := !seenBefore && props.fadeIn
        seenBefore := seenBefore
        useIOSupport := useIOSupport })

/-- `handleRef` (lines 331-356) at the registry level: when the instance
uses IntersectionObserver support and a ref element is attached, subscribe
the element with the instance's visibility callback.  Returns the new
registry state and the unsubscribe data stored in `this.cleanUpListeners`
(`none` when no subscription was created). -/
def handleRef (env : Env) (c : Controller) (refEl : Option Nat) (cb : Nat)
    (s : RegState) : RegState × Option (Option Unit × Nat) :=
  match refEl with
  | some el =>
    if c.useIOSupport then
      let r := listenToIntersections env el cb s
      (r.1, some r.2)
    else (s, none)
  | none => (s, none)

/-- External notifications emitted by the controller. -/
inductive Hook where
  | startLoad (wasCached : Bool)
  | onLoad
  | onError
deriving DecidableEq

/-- `handleImageLoaded` (lines 358-366): mark the identity cache, set
`imgLoaded`, then call the `onLoad` hook when present.  `none` models the
TypeError thrown by the cache update when no variant list is supplied. -/
def handleImageLoaded (props : Props) (c : Controller) (cache : ImageCache) :
    Option (Controller × ImageCache × List Hook) :=
  (activateCacheForImage cache props).map
    (fun cache' =>
      ({ c with imgLoaded := true }, cache',
        if props.onLoadPresent then [Hook.onLoad] else []))

/-- `componentDidMount` (lines 312-322): if visible and an `onStartLoad`
hook is present, report the cache status; then, only when the `critical`
prop is set and the ref element exists and is already `complete`, run
`handleImageLoaded`.  `img` is `this.imageRef.current` (`none` when no
element was attached); its payload is the element's `complete` flag. -/
def componentDidMount (c : Controller) (props : Props)
    (cache : ImageCache) (img : Option Bool) :
    Option (Controller × ImageCache × List Hook) :=
  (if c.isVisible && props.onStartLoadPresent then
      (inImageCache cache props).map (fun wasCached => [Hook.startLoad wasCached])
    else some []).bind
    (fun hooks =>
      if props.critical then
        match img with
        | some complete =>
          if complete then
            (handleImageLoaded props c cache).map
              (fun r => (r.1, r.2.1, hooks ++ r.2.2))
          else some (c, cache, hooks)
        | none => some (c, cache, hooks)
      else some (c, cache, hooks))

/-- The load/error events the rendered `img` element can deliver. -/
inductive ImgEvent where
  | load
  | error
deriving DecidableEq

/-- The event wiring of the rendered `img` element (lines 490-491):
`onLoad` is `this.handleImageLoaded`; `onError` is the external
`this.props.onError` hook directly, so an error event leaves the controller
state and the cache untouched and only notifies the hook when present. -/
def handleImgEvent (props : Props) (c : Controller) (cache : ImageCache) :
    ImgEvent → Option (Controller × ImageCache × List Hook)
  | .load => handleImageLoaded props c cache
  | .error =>
    some (c, cache, if props.onErrorPresent then [Hook.onError] else [])

/-! ### Derived presentation state (render) -/

/-- The style of one layer as derived by `render`: its opacity, the fade
transition duration when one is set (`transition: opacity NNNms` vs
`none`), and the hide-transition delay when one is set. -/
structure LayerStyle where
  opacity : Nat
  transitionMs : Option Nat
  transitionDelayMs : Option Nat
deriving DecidableEq

/-- The presentation state derived on every render (lines 387-408), with
the default empty `imgStyle`/`placeholderStyle` overrides: `shouldReveal`
and `shouldFadeIn`, the final image layer's style (`imageStyle`) and the
placeholder layer's style (`imagePlaceholderStyle`, whose
`delayHideStyle` is spread exactly when `shouldFadeIn`). -/
def renderDerived (props : Props) (c : Controller) : LayerStyle × LayerStyle :=
  let durationFadeIn := (convertProps props).durationFadeIn
  let shouldReveal := (c.fadeIn == false) || c.imgLoaded
  let shouldFadeIn := (c.fadeIn == true) && !c.imgCached
  let imageStyle : LayerStyle :=
    { opacity := if shouldReveal then 1 else 0,
      transitionMs := if shouldFadeIn then some durationFadeIn else none,
      transitionDelayMs := none }
  let imagePlaceholderStyle : LayerStyle :=
    { opacity := if c.imgLoaded then 0 else 1,
      transitionMs := none,
      transitionDelayMs := if shouldFadeIn then some durationFadeIn else none }
  (imageStyle, imagePlaceholderStyle)

/-- Whether `render` (lines 368-618) produces markup: it returns a tree for
the `fluid` branch (line 417) or the `fixed` branch (line 517) of the
converted props, and `null` otherwise (line 617). -/
def renderNonNull (props : Props) : Bool :=
  (convertProps props).fluid.isSome || (convertProps props).fixed.isSome

/-! ### Concrete environments and inputs used by witnesses -/

/-- A browser without native lazy-load support but with
`IntersectionObserver`. -/
def envBrowser : Env :=
  { isBrowser := true, hasNativeLazyLoadSupport := false, hasIOWindow := true }

/-- A browser with neither native lazy-load support nor
`IntersectionObserver`. -/
def envNoIntersection : Env :=
  { isBrowser := true, hasNativeLazyLoadSupport := false, hasIOWindow := false }

/-- A non-browser (server-side rendering) environment. -/
def envServer : Env :=
  { isBrowser := false, hasNativeLazyLoadSupport := false, hasIOWindow := false }

/-- Props with a single fluid variant whose src is `a.png`. -/
def propsA : Props := { fluid := some [{ src := "a.png" }] }

/-- A cache in which only `a.png` has been marked. -/
def cacheA : ImageCache := { own := ["a.png"] }

end GatsbyImage

namespace GatsbyImage

/-! ### Claims -/

/-- **C1.** For every construction input whose identity was already marked
loaded in the Identity Cache (in a browser environment), the newly
constructed controller starts with `isVisible = true` and `fadeIn = false`,
and `handleRef` creates no intersection subscription for it (the registry
state is returned unchanged, and no unsubscribe closure is stored),
regardless of whether deferral would otherwise be required. -/
theorem seenBefore_starts_visible_without_fadeIn_or_subscription
    (env : Env) (cache : ImageCache) (props : Props) (key : String)
    (env₂ : Env) (el cb : Nat) (s : RegState)
    (h₁ : env.isBrowser = true)
    (h₂ : getImageSrcKey (convertProps props).fluid (convertProps props).fixed
      = some key)
    (h₃ : cache.own.contains key = true) :
    (mkController env cache props).map Controller.isVisible = some true
    ∧ (mkController env cache props).map Controller.fadeIn = some false
    ∧ (mkController env cache props).map
        (fun c => handleRef env₂ c (some el) cb s) = some (s, none) := by
  have hseen : inImageCache cache props = some true := by
    have hmem : key ∈ cache.own := by simpa using h₃
    simp only [inImageCache]
    rw [h₂]
    simp [cacheLookupTruthy, hmem]
  simp [mkController, h₁, hseen, handleRef]

/-- Witness for C1 at a concrete input: browser environment, `a.png`
already marked, single fluid variant `a.png`. -/
theorem seenBefore_starts_visible_witness :
    (mkController envBrowser cacheA propsA).map Controller.isVisible = some true
    ∧ (mkController envBrowser cacheA propsA).map Controller.fadeIn = some false
    ∧ (mkController envBrowser cacheA propsA).map
        (fun c => handleRef envBrowser c (some 0) 1 emptyRegistry)
      = some (emptyRegistry, none) :=
  seenBefore_starts_visible_without_fadeIn_or_subscription
    envBrowser cacheA propsA ("a.png") envBrowser 0 1 emptyRegistry
    rfl (by decide) (by decide)

/-- Props whose single variant has the never-marked identity `toString`,
which collides with an inherited `Object.prototype` member name. -/
def propsToString : Props := { fluid := some [{ src := "toString" }] }

/-- **C2 counterexample.** The identity `toString` is not in the Identity
Cache (the fresh cache, `mark` never invoked), the critical flag is false,
loading is the default `lazy`, native deferred-load support is absent and
intersection support is available — yet the constructed controller starts
with `isVisible = true` and `handleRef` creates no subscription: the
`Object.create(\x7b\x7d)` prototype fallback makes the cache lookup truthy
for the never-marked key, so deferral is skipped, refuting the claimed
`isVisible = false` (PENDING) and registration. -/
theorem never_marked_toString_starts_visible_unregistered :
    (mkController envBrowser emptyImageCache propsToString).map
      (fun c => (c.isVisible, c.useIOSupport,
        handleRef envBrowser c (some 0) 1 emptyRegistry))
    = some (true, false, (emptyRegistry, none)) := rfl

/-- **C2 (amended).** For every construction input whose identity the
Identity Cache lookup reports as not loaded (`inImageCache` returns false —
equivalently, an identity neither marked nor colliding with an inherited
`Object.prototype` member name), with the critical flag false, loading not
`eager`, no native deferred-load support, and intersection support
available, the newly constructed controller starts with
`isVisible = false` (PENDING) and `handleRef` registers the element with
the Intersection Registry (its listener is recorded and the element is
observed). -/
theorem unseen_deferred_starts_pending_and_registers
    (env : Env) (cache : ImageCache) (props : Props)
    (el cb : Nat) (s : RegState)
    (h₁ : inImageCache cache props = some false)
    (h₂ : props.critical = false)
    (h₃ : (props.loading == "eager") = false)
    (h₄ : env.hasNativeLazyLoadSupport = false)
    (h₅ : hasIOSupport env = true) :
    (mkController env cache props).map Controller.isVisible = some false
    ∧ (mkController env cache props).map Controller.useIOSupport = some true
    ∧ (mkController env cache props).map
        (fun c => ((handleRef env c (some el) cb s).1.listeners el,
          (handleRef env c (some el) cb s).1.observed el))
      = some (some cb, true) := by
  have hb : env.isBrowser = true := by
    have := h₅
    simp only [hasIOSupport, Bool.and_eq_true] at this
    exact this.1
  simp [mkController, hb, h₁, h₂, h₃, h₄, h₅, handleRef,
    listenToIntersections, getIOModel]

/-- Witness for C2 at a concrete input: browser with intersection support,
empty cache, single fluid variant `a.png`, default lazy loading. -/
theorem unseen_deferred_starts_pending_witness :
    (mkController envBrowser emptyImageCache propsA).map Controller.isVisible
      = some false
    ∧ (mkController envBrowser emptyImageCache propsA).map
        Controller.useIOSupport = some true
    ∧ (mkController envBrowser emptyImageCache propsA).map
        (fun c =>
          ((handleRef envBrowser c (some 0) 1 emptyRegistry).1.listeners 0,
           (handleRef envBrowser c (some 0) 1 emptyRegistry).1.observed 0))
      = some (some 1, true) :=
  unseen_deferred_starts_pending_and_registers
    envBrowser emptyImageCache propsA 0 1 emptyRegistry
    (by decide) rfl rfl rfl rfl

/-- **C3.** For every controller state, the derived presentation state
satisfies exactly: the final image layer is at full opacity iff
`fadeIn = false` or `imgLoaded`; its timed opacity transition is applied
iff `fadeIn = true` and not `imgCached` (`shouldFadeIn`); the placeholder
layer's opacity is `0` when `imgLoaded` and `1` otherwise; and the
placeholder's hide-transition delay is applied exactly when `shouldFadeIn`
holds. -/
theorem renderDerived_presentation_state (props : Props) (c : Controller) :
    ((renderDerived props c).1.opacity = 1
      ↔ (c.fadeIn = false ∨ c.imgLoaded = true))
    ∧ ((renderDerived props c).1.transitionMs
        = some (convertProps props).durationFadeIn
      ↔ (c.fadeIn = true ∧ c.imgCached = false))
    ∧ (renderDerived props c).2.opacity = (if c.imgLoaded then 0 else 1)
    ∧ ((renderDerived props c).2.transitionDelayMs
        = some (convertProps props).durationFadeIn
      ↔ (c.fadeIn = true ∧ c.imgCached = false)) := by
  rcases c with ⟨iv, il, ic, fi, sb, uio⟩
  cases fi <;> cases il <;> cases ic <;> simp [renderDerived]

/-- Helper for C10: the accumulating forEach loop of `groupByMedia` splits
the list into its stable filtered halves. -/
theorem groupByMedia_foldl_eq (l : List Variant) : ∀ w wo : List Variant,
    l.foldl
      (fun (acc : List Variant × List Variant) v =>
        if mediaTruthy v then (acc.1 ++ [v], acc.2) else (acc.1, acc.2 ++ [v]))
      (w, wo)
    = (w ++ l.filter mediaTruthy,
       wo ++ l.filter (fun v => !mediaTruthy v)) := by
  induction l with
  | nil => simp
  | cons v l ih =>
    intro w wo
    cases hv : mediaTruthy v <;>
      simp [hv, ih, List.filter_cons]

/-- **C10.** `groupByMedia` returns a permutation of its input in which
every variant with a (truthy) media condition precedes every variant
without one, the relative order within each group being preserved: it is
exactly the stable partition `filter mediaTruthy ++ filter (not mediaTruthy)`. -/
theorem groupByMedia_is_stable_partition (l : List Variant) :
    (groupByMedia l).Perm l
    ∧ groupByMedia l
      = l.filter mediaTruthy ++ l.filter (fun v => !mediaTruthy v) := by
  have heq : groupByMedia l
      = l.filter mediaTruthy ++ l.filter (fun v => !mediaTruthy v) := by
    simp only [groupByMedia]
    rw [groupByMedia_foldl_eq l [] []]
    simp
  refine ⟨?_, heq⟩
  rw [heq]
  exact List.filter_append_perm _ l

/-- Helper for C4: processing entries never fires a callback for an element
with no registered listener, and never re-registers one. -/
theorem ioCallback_none_no_fire (es : List IOEntry) :
    ∀ (s : RegState) (t : Nat), s.listeners t = none →
    (ioCallback s es).1.listeners t = none
    ∧ ((ioCallback s es).2.countP (fun inv => inv.target == t)) = 0 := by
  induction es with
  | nil =>
    intro s t h
    simp [ioCallback, h]
  | cons e es ih =>
    intro s t h
    have hstep : (ioCallbackEntry s e).1.listeners t = none
        ∧ ((ioCallbackEntry s e).2.countP (fun inv => inv.target == t)) = 0 := by
      cases hl : s.listeners e.target with
      | none => simp [ioCallbackEntry, hl, h]
      | some cb =>
        cases hcond : (e.isIntersecting || decide (0 < e.intersectionRatioNat)) with
        | false => simp [ioCallbackEntry, hl, hcond, h]
        | true =>
          have hne : e.target ≠ t := by
            intro heq
            rw [heq, h] at hl
            exact Option.noConfusion hl
          refine ⟨?_, ?_⟩
          · simp only [ioCallbackEntry, hl, hcond, eraseFromRegistry]
            simp [h]
          · simp only [ioCallbackEntry, hl, hcond]
            simp [hne]
    obtain ⟨h₁, h₂⟩ := hstep
    obtain ⟨h₃, h₄⟩ := ih (ioCallbackEntry s e).1 t h₁
    simp only [ioCallback]
    exact ⟨h₃, by simp [List.countP_append, h₂, h₄]⟩

/-- Helper for C4: across any sequence of entries, at most one invocation
targets a given element. -/
theorem ioCallback_countP_le_one (es : List IOEntry) :
    ∀ (s : RegState) (t : Nat),
    ((ioCallback s es).2.countP (fun inv => inv.target == t)) ≤ 1 := by
  induction es with
  | nil =>
    intro s t
    simp [ioCallback]
  | cons e es ih =>
    intro s t
    cases hl : s.listeners e.target with
    | none =>
      simp only [ioCallback, ioCallbackEntry, hl]
      simpa using ih s t
    | some cb =>
      cases hcond : (e.isIntersecting || decide (0 < e.intersectionRatioNat)) with
      | false =>
        simp only [ioCallback, ioCallbackEntry, hl, hcond]
        simpa using ih s t
      | true =>
        by_cases ht : e.target = t
        · subst ht
          have hnone : (eraseFromRegistry e.target s).listeners e.target = none := by
            simp [eraseFromRegistry]
          have hrest := (ioCallback_none_no_fire es (eraseFromRegistry e.target s)
            e.target hnone).2
          simp only [ioCallback, ioCallbackEntry, hl, hcond]
          simp [List.countP_append, List.countP_cons, hrest]
        · have hrest := ih (eraseFromRegistry e.target s) t
          simp only [ioCallback, ioCallbackEntry, hl, hcond]
          simpa [List.countP_append, List.countP_cons, ht] using hrest

/-- Helper for C4: every recorded invocation sees a registry in which its
own element has already been deregistered and unobserved. -/
theorem ioCallback_removed_before_call (es : List IOEntry) :
    ∀ s : RegState,
    ((ioCallback s es).2.all
      (fun inv => (inv.listenersAtCall inv.target == none)
        && (inv.observedAtCall inv.target == false))) = true := by
  induction es with
  | nil =>
    intro s
    simp [ioCallback]
  | cons e es ih =>
    intro s
    have hstep : ((ioCallbackEntry s e).2.all
        (fun inv => (inv.listenersAtCall inv.target == none)
          && (inv.observedAtCall inv.target == false))) = true := by
      cases hl : s.listeners e.target with
      | none => simp [ioCallbackEntry, hl]
      | some cb =>
        cases hcond : (e.isIntersecting || decide (0 < e.intersectionRatioNat)) with
        | false => simp [ioCallbackEntry, hl, hcond]
        | true => simp [ioCallbackEntry, hl, hcond, eraseFromRegistry]
    simp only [ioCallback, List.all_append]
    rw [Bool.and_eq_true]
    exact ⟨hstep, ih (ioCallbackEntry s e).1⟩

/-- **C4.** For every element registered with the Intersection Registry,
across any sequence of observer reports its visibility callback is invoked
at most once, and at the moment of each invocation the element's registry
entry has already been removed and the element unobserved. -/
theorem registry_fires_at_most_once_after_removal
    (s : RegState) (es : List IOEntry) (t : Nat) :
    ((ioCallback s es).2.countP (fun inv => inv.target == t)) ≤ 1
    ∧ ((ioCallback s es).2.all
        (fun inv => (inv.listenersAtCall inv.target == none)
          && (inv.observedAtCall inv.target == false))) = true :=
  ⟨ioCallback_countP_le_one es s t, ioCallback_removed_before_call es s⟩

/-- **C5 (code bug).** The Identity Cache is created with
`Object.create(\x7b\x7d)`, so property reads fall through to
`Object.prototype`: on the freshly created cache, `has` is already truthy
for the identity `toString` (and the other inherited member names) although
`mark` was never invoked — the claimed `has = previously marked` and
`has = false on the fresh cache` both fail there.  A non-colliding identity
such as `a.png` behaves as claimed. -/
theorem freshCache_truthy_for_inherited_identity :
    inImageCache emptyImageCache { fluid := some [{ src := "toString" }] }
      = some true
    ∧ inImageCache emptyImageCache propsA = some false := by
  exact ⟨rfl, rfl⟩

/-- Props supplying neither a fluid nor a fixed (nor legacy) variant list. -/
def propsNoVariants : Props := {}

/-- **C6 (code bug).** With no variant list supplied, construction in a
browser throws: the constructor's cache lookup reaches
`getImageSrcKey`, where `data` is undefined and `data.src` raises a
TypeError (modelled as `none`).  Only outside a browser does construction
succeed, and there `render` indeed produces nothing. -/
theorem construct_without_variants_throws_in_browser :
    mkController envBrowser emptyImageCache propsNoVariants = none
    ∧ (mkController envServer emptyImageCache propsNoVariants).isSome = true
    ∧ renderNonNull propsNoVariants = false := by
  exact ⟨rfl, rfl, rfl⟩

/-- **C7 counterexample.** A subscription created through
`listenToIntersections` in an environment without `IntersectionObserver`
returns an unsubscribe closure whose captured `observer` is undefined, so
its very first call throws a TypeError — refuting that the returned
unsubscribe function never throws for every created subscription. -/
theorem unsubscribe_without_observer_throws :
    runUnsubscribe
      ((listenToIntersections envNoIntersection 0 0 emptyRegistry).2).1
      ((listenToIntersections envNoIntersection 0 0 emptyRegistry).2).2
      ((listenToIntersections envNoIntersection 0 0 emptyRegistry).1)
    = .error ("TypeError: Cannot read property unobserve of undefined") := rfl

/-- Helper for C7: removing the same element twice equals removing it
once. -/
theorem eraseFromRegistry_idem (el : Nat) (s : RegState) :
    eraseFromRegistry el (eraseFromRegistry el s) = eraseFromRegistry el s := by
  ext x
  all_goals
    simp only [eraseFromRegistry]
    by_cases hx : x = el <;> simp [hx]

/-- Helper for C7: removing an element that is neither registered nor
observed leaves the registry unchanged. -/
theorem eraseFromRegistry_absent (el : Nat) (s : RegState)
    (h₂ : s.listeners el = none) (h₃ : s.observed el = false) :
    eraseFromRegistry el s = s := by
  ext x
  · by_cases hx : x = el
    · subst hx
      simp [eraseFromRegistry, h₂]
    · simp [eraseFromRegistry, hx]
  · by_cases hx : x = el
    · subst hx
      simp [eraseFromRegistry, h₃]
    · simp [eraseFromRegistry, hx]

/-- **C7 (amended).** For every subscription created while the intersection
primitive is available (the shared observer exists), the returned
unsubscribe function is idempotent and safe: it succeeds without throwing,
a second call returns the same registry state unchanged, and calling it on
a registry in which the callback already fired (entry removed, element
unobserved) is a no-op. -/
theorem unsubscribe_idempotent_when_observer_exists
    (env : Env) (el cb : Nat) (s s' : RegState)
    (h : hasIOSupport env = true)
    (h₂ : s'.listeners el = none)
    (h₃ : s'.observed el = false) :
    (listenToIntersections env el cb s).2 = (some (), el)
    ∧ runUnsubscribe (some ()) el (listenToIntersections env el cb s).1
      = .ok (eraseFromRegistry el (listenToIntersections env el cb s).1)
    ∧ runUnsubscribe (some ()) el
        (eraseFromRegistry el (listenToIntersections env el cb s).1)
      = .ok (eraseFromRegistry el (listenToIntersections env el cb s).1)
    ∧ runUnsubscribe (some ()) el s' = .ok s' := by
  have hio : getIOModel env = some () := by
    simp [getIOModel, h]
  refine ⟨?_, ?_, ?_, ?_⟩
  · simp [listenToIntersections, hio]
  · simp [runUnsubscribe]
  · simp [runUnsubscribe, eraseFromRegistry_idem]
  · simp [runUnsubscribe, eraseFromRegistry_absent el s' h₂ h₃]

/-- Witness for the amended C7 at a concrete input: browser with
intersection support, element `0`, callback `1`, empty registry; the
already-fired case is witnessed by the empty registry itself. -/
theorem unsubscribe_idempotent_witness :
    (listenToIntersections envBrowser 0 1 emptyRegistry).2 = (some (), 0)
    ∧ runUnsubscribe (some ()) 0
        (listenToIntersections envBrowser 0 1 emptyRegistry).1
      = .ok (eraseFromRegistry 0
          (listenToIntersections envBrowser 0 1 emptyRegistry).1)
    ∧ runUnsubscribe (some ()) 0
        (eraseFromRegistry 0 (listenToIntersections envBrowser 0 1 emptyRegistry).1)
      = .ok (eraseFromRegistry 0
          (listenToIntersections envBrowser 0 1 emptyRegistry).1)
    ∧ runUnsubscribe (some ()) 0 emptyRegistry = .ok emptyRegistry :=
  unsubscribe_idempotent_when_observer_exists
    envBrowser 0 1 emptyRegistry emptyRegistry rfl rfl rfl

/-- A controller waiting for visibility, as constructed for a deferred
load. -/
def pendingController : Controller :=
  { isVisible := false, imgLoaded := false, imgCached := false,
    fadeIn := true, seenBefore := false, useIOSupport := true }

/-- **C8.** When the load-error signal fires instead of load-complete, the
controller does not transition to LOADED (its state, `imgLoaded`
included, is returned unchanged), the Identity Cache is not marked
(returned unchanged), and the error is forwarded to the external on-error
hook. -/
theorem load_error_keeps_state_and_cache_and_forwards
    (props : Props) (c : Controller) (cache : ImageCache)
    (h : props.onErrorPresent = true) :
    handleImgEvent props c cache .error = some (c, cache, [Hook.onError]) := by
  simp [handleImgEvent, h]

/-- Props with one fluid variant `a.png` and an on-error hook attached. -/
def propsAWithError : Props :=
  { fluid := some [{ src := "a.png" }], onErrorPresent := true }

/-- Witness for C8 at a concrete input: a pending controller, empty cache,
an error event. -/
theorem load_error_witness :
    handleImgEvent propsAWithError pendingController emptyImageCache .error
    = some (pendingController, emptyImageCache, [Hook.onError]) :=
  load_error_keeps_state_and_cache_and_forwards
    propsAWithError pendingController emptyImageCache rfl

/-- Props requesting an explicit eager load without the critical flag. -/
def propsEager : Props :=
  { fluid := some [{ src := "a.png" }], critical := false, loading := "eager" }

/-- **C9 counterexample.** A controller constructed with an explicit
`loading = eager` request but without the `critical` flag starts visible,
yet `componentDidMount` skips the already-complete check (it is guarded by
`this.props.critical` alone): with the element already complete at mount,
`imgLoaded` stays `false` — refuting the claim for the
explicit-immediate-load disjunct. -/
theorem eager_noncritical_misses_mount_check :
    ((mkController envBrowser emptyImageCache propsEager).bind
      (fun c => componentDidMount c propsEager emptyImageCache (some true))).map
      (fun r => (r.1.isVisible, r.1.imgLoaded))
    = some (true, false) := rfl

/-- **C9 (amended).** For every controller whose props carry the
`critical` flag and whose underlying element is already complete at mount
time, the post-construction mount check triggers the LOADED transition:
`imgLoaded` becomes true and the identity is marked in the cache. -/
theorem critical_complete_triggers_loaded
    (c : Controller) (props : Props) (cache : ImageCache) (key : String)
    (h₁ : props.critical = true)
    (h₂ : getImageSrcKey (convertProps props).fluid (convertProps props).fixed
      = some key) :
    (componentDidMount c props cache (some true)).map
      (fun r => (r.1.imgLoaded, cacheLookupTruthy r.2.1 key))
    = some (true, true) := by
  have hin : inImageCache cache props = some (cacheLookupTruthy cache key) := by
    simp only [inImageCache]
    rw [h₂]
    rfl
  have hact : activateCacheForImage cache props
      = some { own := key :: cache.own } := by
    simp only [activateCacheForImage]
    rw [h₂]
    rfl
  cases hb : (c.isVisible && props.onStartLoadPresent) <;>
    simp [componentDidMount, hb, h₁, hin, hact, handleImageLoaded,
      cacheLookupTruthy]

/-- Props with one fluid variant `a.png` and the critical flag. -/
def propsCritical : Props :=
  { fluid := some [{ src := "a.png" }], critical := true }

/-- Witness for the amended C9 at a concrete input: critical props, pending
controller, empty cache, element complete at mount. -/
theorem critical_complete_witness :
    (componentDidMount pendingController propsCritical emptyImageCache
      (some true)).map
      (fun r => (r.1.imgLoaded, cacheLookupTruthy r.2.1 ("a.png")))
    = some (true, true) :=
  critical_complete_triggers_loaded
    pendingController propsCritical emptyImageCache ("a.png") rfl rfl

end GatsbyImage
